import Mathlib

/-!
Verification of the jupyter-stats utility helpers.

The development shallowly embeds the two source modules:

* `src/utils/visualizers.py` — `BaseVisualizer._calc_nrows_ncols` (grid
  layout planning), `BaseVisualizer._get_ax` (axis resolution inside the
  allocated subplot grid), and the `DataFrameVisualizer._plot_dots` /
  `plot_bar` interaction (Python call-argument binding).
* `src/utils/dataframe_processors.py` — `get_value_from_dataframe`.

Python integers are modelled as `Int` (converted to `Nat` once positivity
has been checked, where Python's floor division and modulo on positive
integers agree with `Nat` division), dynamic typing by small inductive
value universes, and `raise` by `Except`.
-/

/-- A Python value as dispatched on by `isinstance(-, int)` in
`_calc_nrows_ncols`: an `int`, a `float`, or some other object (modelled
by a string). `bool` is an `int` subtype in Python and is subsumed by
`int`. -/
inductive PyVal where
  | int (n : Int)
  | float (q : Rat)
  | str (s : String)
deriving DecidableEq

deriving instance DecidableEq for Except

/-- The two exception classes `_calc_nrows_ncols` can raise:
`TypeError` and `ValueError`. -/
inductive PlanError where
  | typeError
  | valueError
deriving DecidableEq

/-- The arithmetic core of `BaseVisualizer._calc_nrows_ncols`
(src/utils/visualizers.py lines 57-64), reached once both arguments are
known to be positive integers:

    if nplots < max_ncols: ncols = nplots
    else: ncols = max_ncols
    nrows = nplots // ncols + int(nplots % ncols != 0)
    return nrows, ncols

On positive integers Python's `//` and `%` agree with `Nat` division and
modulo. -/
def calcNrowsNcolsPos (nplots maxNcols : Nat) : Nat × Nat :=
  let ncols := if nplots < maxNcols then nplots else maxNcols
  let nrows := nplots / ncols + if nplots % ncols ≠ 0 then 1 else 0
  (nrows, ncols)

/-- `BaseVisualizer._calc_nrows_ncols` (src/utils/visualizers.py lines
51-64) including its argument validation:

    if isinstance(nplots, int) and isinstance(max_ncols, int):
        if nplots <= 0 or max_ncols <= 0:
            raise ValueError(...)
    else:
        raise TypeError(...)

followed by the arithmetic of `calcNrowsNcolsPos`. -/
def calcNrowsNcols (nplots maxNcols : PyVal) : Except PlanError (Nat × Nat) :=
  match nplots, maxNcols with
  | PyVal.int n, PyVal.int m =>
      if n ≤ 0 ∨ m ≤ 0 then Except.error PlanError.valueError
      else Except.ok (calcNrowsNcolsPos n.toNat m.toNat)
  | _, _ => Except.error PlanError.typeError

lemma ncols_eq_min (n m : Nat) : (if n < m then n else m) = min n m := by
  rcases Nat.lt_or_ge n m with h | h
  · simp [h, Nat.min_eq_left h.le]
  · simp [Nat.not_lt.mpr h, Nat.min_eq_right h]

lemma calcNrowsNcolsPos_eq (n m : Nat) :
    calcNrowsNcolsPos n m
      = (n / min n m + if n % min n m ≠ 0 then 1 else 0, min n m) := by
  simp only [calcNrowsNcolsPos, ncols_eq_min]

lemma calcNrowsNcols_pos_eq (n m : Nat) (hn : 0 < n) (hm : 0 < m) :
    calcNrowsNcols (PyVal.int n) (PyVal.int m)
      = Except.ok (calcNrowsNcolsPos n m) := by
  have h1 : ¬ ((n : Int) ≤ 0 ∨ (m : Int) ≤ 0) := by omega
  have h2 : ((n : Int)).toNat = n := by omega
  have h3 : ((m : Int)).toNat = m := by omega
  simp [calcNrowsNcols, h1, h2, h3]
  omega

/-- When `plan` succeeds on positive integers, the components it returns
are the closed formulas of the source. -/
lemma plan_eq (n m r c : Nat) (hn : 0 < n) (hm : 0 < m)
    (hp : calcNrowsNcols (PyVal.int n) (PyVal.int m) = Except.ok (r, c)) :
    c = min n m ∧ r = n / c + (if n % c ≠ 0 then 1 else 0) := by
  rw [calcNrowsNcols_pos_eq n m hn hm, calcNrowsNcolsPos_eq] at hp
  injection hp with hp
  injection hp with hr hc
  exact ⟨hc.symm, by rw [← hc, ← hr]⟩

/-- ceiling lower bound: the computed row count covers all items. -/
lemma rows_mul_ge (n c : Nat) (hc : 0 < c) :
    n ≤ (n / c + if n % c ≠ 0 then 1 else 0) * c := by
  by_cases h : n % c = 0
  · simp only [h, ne_eq, not_true_eq_false, if_false, Nat.add_zero]
    exact (Nat.div_mul_cancel (Nat.dvd_of_mod_eq_zero h)).ge
  · simp only [h, ne_eq, not_false_eq_true, if_true]
    have h1 := Nat.div_add_mod n c
    have h2 := Nat.mod_lt n hc
    have hlt : n < (n / c + 1) * c := by
      calc n = c * (n / c) + n % c := h1.symm
        _ < c * (n / c) + c := Nat.add_lt_add_left h2 _
        _ = (n / c + 1) * c := by ring
    exact hlt.le

/-- ceiling minimality: the row before the last one is entirely filled. -/
lemma rows_pred_mul_lt (n c : Nat) (hc : 0 < c) (hcn : c ≤ n) :
    ((n / c + if n % c ≠ 0 then 1 else 0) - 1) * c < n := by
  by_cases h : n % c = 0
  · simp only [h, ne_eq, not_true_eq_false, if_false, Nat.add_zero]
    have hq : 1 ≤ n / c := (Nat.one_le_div_iff hc).mpr hcn
    have hmul : n / c * c = n := Nat.div_mul_cancel (Nat.dvd_of_mod_eq_zero h)
    calc (n / c - 1) * c = n / c * c - 1 * c := by rw [Nat.sub_mul]
      _ = n - c := by rw [hmul, one_mul]
      _ < n := Nat.sub_lt (lt_of_lt_of_le hc hcn) hc
  · simp only [h, ne_eq, not_false_eq_true, if_true, Nat.add_sub_cancel]
    have h1 := Nat.div_add_mod n c
    have h2 : 0 < n % c := Nat.pos_of_ne_zero h
    calc n / c * c = c * (n / c) := Nat.mul_comm _ _
      _ < c * (n / c) + n % c := Nat.lt_add_of_pos_right h2
      _ = n := h1

/-- The shapes in which matplotlib's `plt.subplots` hands back its axes:
a single `Axes` object (1×1 grid), a one-dimensional array (1×N or N×1),
or a two-dimensional array (N×M with N, M > 1). `α` is the type of a
single axis handle. -/
inductive AxesObj (α : Type) where
  | handle (a : α)
  | oneD (xs : List α)
  | twoD (xss : List (List α))
deriving DecidableEq

/-- `BaseVisualizer._get_ax` (src/utils/visualizers.py lines 89-94):

    if nrows > 1 and ncols > 1: return axes[idx // ncols, idx % ncols]
    elif nrows * ncols == 1: return axes
    else: return axes[idx]

The dispatch is on `nrows`/`ncols` only; the container itself is whatever
the caller passed. A Python `IndexError`/`TypeError` from a subscript that
does not fit the container is modelled by `none`. In the `nrows * ncols
== 1` branch the object `axes` is returned as-is; subscripting a 2D array
with one index yields a row, and with two indices the row-major element. -/
def getAx {α : Type} (axes : AxesObj α) (idx nrows ncols : Nat) :
    Option (AxesObj α) :=
  if 1 < nrows ∧ 1 < ncols then
    match axes with
    | AxesObj.twoD xss =>
        ((xss.get? (idx / ncols)).bind fun row =>
          row.get? (idx % ncols)).map AxesObj.handle
    | _ => none
  else if nrows * ncols = 1 then
    some axes
  else
    match axes with
    | AxesObj.oneD xs => (xs.get? idx).map AxesObj.handle
    | AxesObj.twoD xss => (xss.get? idx).map AxesObj.oneD
    | AxesObj.handle _ => none

/-- A pandas/numpy scalar as dispatched on by `get_value_from_dataframe`:
`np.nan` (a float), an `int`, a `float`, or a `str`. -/
inductive PdScalar where
  | nan
  | intVal (n : Int)
  | floatVal (q : Rat)
  | strVal (s : String)
deriving DecidableEq

/-- The scalar types a caller can pass as `data_type`. -/
inductive PyType where
  | intType
  | floatType
  | strType
deriving DecidableEq

/-- Python `isinstance` on the scalar universe; `np.nan` is a `float`. -/
def isInstanceOf : PdScalar → PyType → Bool
  | PdScalar.intVal _, PyType.intType => true
  | PdScalar.floatVal _, PyType.floatType => true
  | PdScalar.nan, PyType.floatType => true
  | PdScalar.strVal _, PyType.strType => true
  | _, _ => false

/-- The `data` argument of `get_value_from_dataframe`: either a
`pd.Series` (an ordered, possibly empty list of scalars) or a raw
scalar. -/
inductive PdData where
  | series (values : List PdScalar)
  | scalar (v : PdScalar)
deriving DecidableEq

/-- The `TypeError` that `get_value_from_dataframe` can raise. -/
inductive ExtractError where
  | typeError
deriving DecidableEq

/-- `get_value_from_dataframe` (src/utils/dataframe_processors.py lines
5-15):

    if isinstance(data, pd.Series):
        if data.empty: return empty_value
        else: return data.values[0]
    elif isinstance(data, data_type):
        return data
    else:
        raise TypeError(...)
-/
def getValueFromDataframe (data : PdData) (dataType : PyType)
    (emptyValue : PdScalar) : Except ExtractError PdScalar :=
  match data with
  | PdData.series values =>
      match values with
      | [] => Except.ok emptyValue
      | x :: _ => Except.ok x
  | PdData.scalar v =>
      if isInstanceOf v dataType then Except.ok v
      else Except.error ExtractError.typeError

/-- An untyped Python value flowing through the `plot_bar` →
`_plot_dots` → `sns.stripplot` call chain: a string (column name), a
number (`plot_size`), an axis object, or `None`. -/
inductive PyObj where
  | str (s : String)
  | num (q : Rat)
  | axisHandle (id : Nat)
  | pyNone
deriving DecidableEq

/-- The `TypeError`s Python can raise while binding call arguments to the
parameters of a function. -/
inductive CallError where
  | multipleValues (param : String)
  | missingArgument (param : String)
  | tooManyPositional
deriving DecidableEq

/-- Python's binding of a call's arguments to a signature of
positional-or-keyword parameters plus a trailing `**kwargs`:
positional arguments fill `params` in declaration order; a keyword
naming an already positionally-bound parameter raises `TypeError:
multiple values for argument ...`; remaining parameters take their
keyword argument, else their default, else raise a missing-argument
`TypeError`. Keywords naming no parameter land in `**kwargs` and are
irrelevant here. Returns the environment `parameter name ↦ value`. -/
def bindCall (params : List String) (defaults : List (String × PyObj))
    (pos : List PyObj) (kw : List (String × PyObj)) :
    Except CallError (List (String × PyObj)) :=
  if params.length < pos.length then Except.error CallError.tooManyPositional
  else
    let posBound := params.zip pos
    match kw.find? (fun p => (posBound.lookup p.fst).isSome) with
    | some p => Except.error (CallError.multipleValues p.fst)
    | none =>
        params.mapM fun name =>
          match posBound.lookup name with
          | some v => Except.ok (name, v)
          | none =>
              match kw.lookup name with
              | some v => Except.ok (name, v)
              | none =>
                  match defaults.lookup name with
                  | some v => Except.ok (name, v)
                  | none => Except.error (CallError.missingArgument name)

/-- The parameters of `DataFrameVisualizer._plot_dots` after `self`
(src/utils/visualizers.py lines 113-117), in declaration order:
`x_col, y_col, plot_size, ax, hue_col=None, **kwargs`. -/
def plotDotsParams : List String := ["x_col", "y_col", "plot_size", "ax", "hue_col"]

/-- The single default of that signature: `hue_col=None`. -/
def plotDotsDefaults : List (String × PyObj) := [("hue_col", PyObj.pyNone)]

/-- What `sns.stripplot` receives from the body of `_plot_dots`
(line 117): `x=x_col, y=y_col, hue=hue_col, size=plot_size, ax=ax`. -/
structure StripplotCall where
  x : PyObj
  y : PyObj
  hue : PyObj
  size : PyObj
  ax : PyObj
deriving DecidableEq

/-- The body of `_plot_dots`, reading the bound parameter environment. -/
def plotDotsBody (env : List (String × PyObj)) : StripplotCall :=
  { x := (env.lookup "x_col").getD PyObj.pyNone
    y := (env.lookup "y_col").getD PyObj.pyNone
    hue := (env.lookup "hue_col").getD PyObj.pyNone
    size := (env.lookup "plot_size").getD PyObj.pyNone
    ax := (env.lookup "ax").getD PyObj.pyNone }

/-- The `_plot_dots` invocation `plot_bar` performs when `plot_dots` is
true (src/utils/visualizers.py line 133):

    self._plot_dots(x_col, y_col, hue_col, plot_size, ax=ax_i)

four positional arguments and the keyword `ax`, bound against the
`_plot_dots` signature, then the stripplot call the body would make. -/
def plotBarDotsCall (x_col y_col hue_col plot_size ax_i : PyObj) :
    Except CallError StripplotCall :=
  (bindCall plotDotsParams plotDotsDefaults
    [x_col, y_col, hue_col, plot_size] [("ax", ax_i)]).map plotDotsBody

/-- `get_value_from_dataframe` called without the optional third
argument: the Python signature defaults it, `empty_value=np.nan`. -/
def getValueFromDataframeDefault (data : PdData) (dataType : PyType) :
    Except ExtractError PdScalar :=
  getValueFromDataframe data dataType PdScalar.nan

/-- The extract contract written from the spec's words (section 4.1):
empty column-like yields the fallback, non-empty yields the first
element, a scalar of the expected type is returned unchanged, anything
else is a TypeMismatch. -/
def extractSpec (data : PdData) (dataType : PyType) (fallback : PdScalar) :
    Except ExtractError PdScalar :=
  match data with
  | PdData.series [] => Except.ok fallback
  | PdData.series (x :: _) => Except.ok x
  | PdData.scalar v =>
      if isInstanceOf v dataType then Except.ok v
      else Except.error ExtractError.typeError

/-- C1: for every pair of positive integers n (item_count) and m
(max_columns), plan(n, m) returns columns equal to min(n, m) and rows
equal to ceil(n / columns), i.e. rows = floor(n / columns) plus 1 exactly
when n is not divisible by columns. -/
theorem plan_columns_min_rows_ceil (n m r c : Nat) (hn : 0 < n) (hm : 0 < m)
    (hp : calcNrowsNcols (PyVal.int n) (PyVal.int m) = Except.ok (r, c)) :
    c = min n m ∧ r = n / c + (if n % c ≠ 0 then 1 else 0) ∧
      r = ⌈(n : ℚ) / (c : ℚ)⌉₊ := by
  obtain ⟨hc, hr⟩ := plan_eq n m r c hn hm hp
  have hcpos : 0 < c := by rw [hc]; exact lt_min hn hm
  have hcn : c ≤ n := by rw [hc]; exact min_le_left n m
  refine ⟨hc, hr, ?_⟩
  have hge : n ≤ r * c := by rw [hr]; exact rows_mul_ge n c hcpos
  have hlt : (r - 1) * c < n := by rw [hr]; exact rows_pred_mul_lt n c hcpos hcn
  have h1 : 1 ≤ n / c := (Nat.one_le_div_iff hcpos).mpr hcn
  have hrpos : 0 < r := by
    rw [hr]; exact Nat.lt_of_lt_of_le h1 (Nat.le_add_right _ _)
  symm
  rw [Nat.ceil_eq_iff (by omega)]
  have hcq : (0 : ℚ) < (c : ℚ) := by exact_mod_cast hcpos
  constructor
  · rw [lt_div_iff₀ hcq]
    exact_mod_cast hlt
  · rw [div_le_iff₀ hcq]
    exact_mod_cast hge

/-- Witness for C1 at n = 7, m = 3: the plan is (rows, columns) = (3, 3). -/
theorem plan_columns_min_rows_ceil_witness :
    (0 : Nat) < 7 ∧ (0 : Nat) < 3 ∧
    calcNrowsNcols (PyVal.int 7) (PyVal.int 3) = Except.ok (3, 3) ∧
    (3 = min 7 3 ∧ 3 = 7 / 3 + (if 7 % 3 ≠ 0 then 1 else 0) ∧
      (3 : Nat) = ⌈((7 : Nat) : ℚ) / ((3 : Nat) : ℚ)⌉₊) :=
  ⟨by decide, by decide, by decide,
    plan_columns_min_rows_ceil 7 3 3 3 (by decide) (by decide) (by decide)⟩

/-- C5: for all positive integers n and m, the grid of plan(n, m) has at
least as many cells as items: rows * columns >= n. -/
theorem plan_cells_cover_items (n m r c : Nat) (hn : 0 < n) (hm : 0 < m)
    (hp : calcNrowsNcols (PyVal.int n) (PyVal.int m) = Except.ok (r, c)) :
    n ≤ r * c := by
  obtain ⟨hc, hr⟩ := plan_eq n m r c hn hm hp
  have hcpos : 0 < c := by rw [hc]; exact lt_min hn hm
  rw [hr]
  exact rows_mul_ge n c hcpos

/-- Witness for C5 at n = 5, m = 2: the plan is (3, 2) and 5 <= 3 * 2. -/
theorem plan_cells_cover_items_witness :
    calcNrowsNcols (PyVal.int 5) (PyVal.int 2) = Except.ok (3, 2) ∧ 5 ≤ 3 * 2 :=
  ⟨by decide, plan_cells_cover_items 5 2 3 2 (by decide) (by decide) (by decide)⟩

/-- C8: for all positive integers n and m, (rows - 1) * columns < n for
plan(n, m): the last row always holds at least one item, no completely
empty row is allocated. -/
theorem plan_last_row_nonempty (n m r c : Nat) (hn : 0 < n) (hm : 0 < m)
    (hp : calcNrowsNcols (PyVal.int n) (PyVal.int m) = Except.ok (r, c)) :
    (r - 1) * c < n := by
  obtain ⟨hc, hr⟩ := plan_eq n m r c hn hm hp
  have hcpos : 0 < c := by rw [hc]; exact lt_min hn hm
  have hcn : c ≤ n := by rw [hc]; exact min_le_left n m
  rw [hr]
  exact rows_pred_mul_lt n c hcpos hcn

/-- Witness for C8 at n = 5, m = 3: the plan is (2, 3) and (2-1)*3 < 5. -/
theorem plan_last_row_nonempty_witness :
    calcNrowsNcols (PyVal.int 5) (PyVal.int 3) = Except.ok (2, 3) ∧
    (2 - 1) * 3 < 5 :=
  ⟨by decide, plan_last_row_nonempty 5 3 2 3 (by decide) (by decide) (by decide)⟩

/-- C6: for positive n and m with plan (rows, columns) and any linear
index i < n, the position the axis resolution computes is in range for
the container shape: in the 2D branch i / columns < rows and
i % columns < columns, and in the 1D branch i < rows * columns. -/
theorem plan_resolve_in_range (n m i r c : Nat) (hn : 0 < n) (hm : 0 < m)
    (hi : i < n)
    (hp : calcNrowsNcols (PyVal.int n) (PyVal.int m) = Except.ok (r, c)) :
    (1 < r → 1 < c → i / c < r ∧ i % c < c) ∧ i < r * c := by
  obtain ⟨hc, hr⟩ := plan_eq n m r c hn hm hp
  have hcpos : 0 < c := by rw [hc]; exact lt_min hn hm
  have hcov : n ≤ r * c := by rw [hr]; exact rows_mul_ge n c hcpos
  have hirc : i < r * c := lt_of_lt_of_le hi hcov
  exact ⟨fun _ _ => ⟨(Nat.div_lt_iff_lt_mul hcpos).mpr hirc,
    Nat.mod_lt i hcpos⟩, hirc⟩

/-- Witness for C6 at n = 7, m = 3, i = 6: the plan is (3, 3) and the
resolved position (2, 0) is in range. -/
theorem plan_resolve_in_range_witness :
    calcNrowsNcols (PyVal.int 7) (PyVal.int 3) = Except.ok (3, 3) ∧
    ((1 < 3 → 1 < 3 → 6 / 3 < 3 ∧ 6 % 3 < 3) ∧ 6 < 3 * 3) :=
  ⟨by decide,
    plan_resolve_in_range 7 3 6 3 3 (by decide) (by decide) (by decide)
      (by decide)⟩

/-- C7: plan fails if and only if at least one argument is non-positive
or not an integer; in particular plan(0, 5) and plan(5, 0) both fail, and
on positive integers the call succeeds. -/
theorem plan_fails_iff_invalid :
    (∀ a b : PyVal,
      (∃ p, calcNrowsNcols a b = Except.ok p) ↔
        ∃ n m : Int, a = PyVal.int n ∧ b = PyVal.int m ∧ 0 < n ∧ 0 < m) ∧
    calcNrowsNcols (PyVal.int 0) (PyVal.int 5)
      = Except.error PlanError.valueError ∧
    calcNrowsNcols (PyVal.int 5) (PyVal.int 0)
      = Except.error PlanError.valueError := by
  refine ⟨fun a b => ⟨?_, ?_⟩, by decide, by decide⟩
  · rintro ⟨p, hp⟩
    cases a with
    | int n =>
      cases b with
      | int m =>
        by_cases h : n ≤ 0 ∨ m ≤ 0
        · simp [calcNrowsNcols, h] at hp
        · exact ⟨n, m, rfl, rfl, by omega, by omega⟩
      | float q => simp [calcNrowsNcols] at hp
      | str s => simp [calcNrowsNcols] at hp
    | float q => cases b <;> simp [calcNrowsNcols] at hp
    | str s => cases b <;> simp [calcNrowsNcols] at hp
  · rintro ⟨n, m, rfl, rfl, hn, hm⟩
    have h : ¬ (n ≤ 0 ∨ m ≤ 0) := by omega
    exact ⟨calcNrowsNcolsPos n.toNat m.toNat, by simp [calcNrowsNcols, h]⟩

/-- C9: the integer-type check of plan runs before the positivity check:
any non-integer argument yields the wrong-type error, even when the
values are positive numbers, while non-positive integer arguments yield
the distinct non-positive-value error. -/
theorem plan_type_check_precedes_value_check :
    (∀ a b : PyVal,
        ((∀ k : Int, a ≠ PyVal.int k) ∨ (∀ k : Int, b ≠ PyVal.int k)) →
        calcNrowsNcols a b = Except.error PlanError.typeError) ∧
    (∀ q : Rat, ∀ m : Int, 0 < q → 0 < m →
        calcNrowsNcols (PyVal.float q) (PyVal.int m)
          = Except.error PlanError.typeError) ∧
    (∀ n m : Int, n ≤ 0 ∨ m ≤ 0 →
        calcNrowsNcols (PyVal.int n) (PyVal.int m)
          = Except.error PlanError.valueError) := by
  refine ⟨?_, ?_, ?_⟩
  · intro a b h
    cases a with
    | int n =>
      cases b with
      | int m =>
        rcases h with h | h
        · exact absurd rfl (h n)
        · exact absurd rfl (h m)
      | float q => rfl
      | str s => rfl
    | float q => cases b <;> rfl
    | str s => cases b <;> rfl
  · intro q m _ _
    rfl
  · intro n m h
    simp only [calcNrowsNcols]
    rw [if_pos h]

/-- Witness for C9: a positive float for item_count gives TypeError, a
zero integer gives ValueError. -/
theorem plan_type_check_precedes_value_check_witness :
    (0 : Rat) < 5 / 2 ∧ (0 : Int) < 3 ∧
    calcNrowsNcols (PyVal.float (5 / 2)) (PyVal.int 3)
      = Except.error PlanError.typeError ∧
    ((0 : Int) ≤ 0 ∨ (3 : Int) ≤ 0) ∧
    calcNrowsNcols (PyVal.int 0) (PyVal.int 3)
      = Except.error PlanError.valueError :=
  ⟨by norm_num, by decide,
    plan_type_check_precedes_value_check.2.1 (5 / 2) 3 (by norm_num) (by decide),
    Or.inl (by decide),
    plan_type_check_precedes_value_check.2.2 0 3 (Or.inl (by decide))⟩

/-- C2: axis resolution dispatches on the grid shape: with rows > 1 and
columns > 1 it indexes the 2D container at (i / columns, i % columns);
with rows * columns = 1 it returns the sole handle unchanged for every
linear index; otherwise it indexes the 1D container at i. -/
theorem getAx_shape_dispatch (α : Type) :
    (∀ (xss : List (List α)) (i r c : Nat), 1 < r → 1 < c →
        getAx (AxesObj.twoD xss) i r c
          = ((xss.get? (i / c)).bind fun row => row.get? (i % c)).map
              AxesObj.handle) ∧
    (∀ (a : α) (i r c : Nat), r * c = 1 →
        getAx (AxesObj.handle a) i r c = some (AxesObj.handle a)) ∧
    (∀ (xs : List α) (i r c : Nat), ¬ (1 < r ∧ 1 < c) → r * c ≠ 1 →
        getAx (AxesObj.oneD xs) i r c = (xs.get? i).map AxesObj.handle) := by
  refine ⟨?_, ?_, ?_⟩
  · intro xss i r c hr hc
    simp [getAx, hr, hc]
  · intro a i r c h
    have hr : r = 1 := Nat.eq_one_of_mul_eq_one_right h
    have hc : c = 1 := Nat.eq_one_of_mul_eq_one_left h
    subst hr; subst hc
    simp [getAx]
  · intro xs i r c h1 h2
    simp [getAx, h1, h2]

/-- Witness for C2: a 2×3 grid resolves index 4 to cell (1, 1); a 1×1
grid returns its sole handle even for index 5; a 3×1 grid resolves index
2 in the flat container. -/
theorem getAx_shape_dispatch_witness :
    getAx (AxesObj.twoD [[10, 11, 12], [13, 14, 15]]) 4 2 3
        = some (AxesObj.handle (14 : Nat)) ∧
    getAx (AxesObj.handle (7 : Nat)) 5 1 1 = some (AxesObj.handle 7) ∧
    getAx (AxesObj.oneD [20, 21, 22]) 2 3 1
        = some (AxesObj.handle (22 : Nat)) := by
  refine ⟨?_, ?_, ?_⟩
  · have h := (getAx_shape_dispatch Nat).1 [[10, 11, 12], [13, 14, 15]] 4 2 3
      (by decide) (by decide)
    exact h.trans (by decide)
  · exact (getAx_shape_dispatch Nat).2.1 7 5 1 1 (by decide)
  · have h := (getAx_shape_dispatch Nat).2.2 [20, 21, 22] 2 3 1 (by decide)
      (by decide)
    exact h.trans (by decide)

/-- C3 (code bug): the _plot_dots invocation performed by plot_bar binds
hue_col positionally into the plot_size parameter and plot_size into ax,
so the additional ax keyword collides and Python raises TypeError
("multiple values for argument ax") for every argument combination; the
overlaid stripplot call never receives the caller's plot_size as size nor
hue_col as hue. -/
theorem plot_bar_dots_call_raises (x_col y_col hue_col plot_size ax_i : PyObj) :
    plotBarDotsCall x_col y_col hue_col plot_size ax_i
      = Except.error (CallError.multipleValues "ax") := rfl

/-- C4: extract returns the fallback on an empty column, the first
element on a non-empty column (extras ignored), the scalar itself when it
is an instance of the expected type, fails with TypeMismatch otherwise,
and fails in no other case. -/
theorem extract_matches_contract (data : PdData) (dataType : PyType)
    (fallback : PdScalar) :
    getValueFromDataframe data dataType fallback
        = extractSpec data dataType fallback ∧
      ((∃ e, getValueFromDataframe data dataType fallback = Except.error e) ↔
        ∃ v, data = PdData.scalar v ∧ isInstanceOf v dataType = false) := by
  constructor
  · cases data with
    | series values => cases values <;> rfl
    | scalar v => rfl
  · cases data with
    | series values =>
      cases values with
      | nil => simp [getValueFromDataframe]
      | cons x xs => simp [getValueFromDataframe]
    | scalar v =>
      by_cases h : isInstanceOf v dataType = true
      · simp [getValueFromDataframe, h]
      · simp [getValueFromDataframe, h]
        exact ⟨ExtractError.typeError, trivial⟩

/-- C10: called without the optional fallback, extract returns NaN on an
empty column-like input, the Python default empty_value=np.nan. -/
theorem extract_default_nan (dataType : PyType) :
    getValueFromDataframeDefault (PdData.series []) dataType
      = Except.ok PdScalar.nan := rfl
